import Mathlib

/-!
Shallow embedding of the Bitwarden provider of `secretspec`
(src/secretspec/src/provider/bitwarden.rs): the dual-service vault adapter,
its URI-to-configuration parser, the field-resolution algorithm for typed
vault items, and the create/update search strategies.

Rust `Option<T>` becomes `Option T`, `Result<T>` becomes `Except String T`
(the error payload is the message of `SecretSpecError::ProviderOperationFailed`),
`SecretString` is modelled as a plain `String` (the wrapper adds no logic),
and environment-variable lookups become explicit fields of an `EnvVars`
record passed to the functions that consult them.  Lower-casing is modelled
per character (ASCII-range lowering), matching the behaviour
of the Rust code on ASCII data.
-/

namespace Secretspec

/-! ### String helpers mirroring the Rust standard-library operations used -/

/-- `needle` is a leading segment of `hay` (helper for substring search). -/
def isLeadIn : List Char → List Char → Bool
  | [], _ => true
  | _ :: _, [] => false
  | a :: as, b :: bs => a == b && isLeadIn as bs

/-- `needle` occurs contiguously somewhere in `hay`. -/
def occursIn (needle : List Char) : List Char → Bool
  | [] => isLeadIn needle []
  | b :: bs => isLeadIn needle (b :: bs) || occursIn needle bs

/-- Mirrors Rust `hay.contains(needle)` on strings. -/
def strOccurs (hay needle : String) : Bool :=
  occursIn needle.data hay.data

/-- Mirrors Rust `to_lowercase` (structurally, via `Char.toLower` on each
character, which lowers the ASCII range). -/
def strToLower (s : String) : String :=
  ⟨s.data.map Char.toLower⟩

/-- Fuel-driven replacement of every non-overlapping occurrence of `pat`
(left to right) by `sub`; with fuel at least the list length this is
Rust `str::replace` for a non-empty pattern. -/
def replaceFuel (pat sub : List Char) : Nat → List Char → List Char
  | 0, l => l
  | fuel + 1, l =>
    match l with
    | [] => []
    | c :: rest =>
      if pat ≠ [] ∧ isLeadIn pat l then
        sub ++ replaceFuel pat sub fuel (List.drop pat.length l)
      else c :: replaceFuel pat sub fuel rest

/-- Mirrors Rust `s.replace(pat, sub)` (the patterns used by the adapter,
`{project}` and `{profile}`, are never empty). -/
def strReplace (s pat sub : String) : String :=
  ⟨replaceFuel pat.data sub.data s.data.length s.data⟩

/-- ASCII lower-casing of one character (mirrors `u8::to_ascii_lowercase`). -/
def asciiLowerChar (c : Char) : Char :=
  if 'A' ≤ c ∧ c ≤ 'Z' then Char.ofNat (c.toNat + 32) else c

/-- Mirrors Rust `a.eq_ignore_ascii_case(b)`. -/
def eqIgnoreAsciiCase (a b : String) : Bool :=
  a.data.map asciiLowerChar == b.data.map asciiLowerChar

/-- Mirrors `BitwardenService`: Password Manager (`bw` CLI) vs Secrets
Manager (`bws` CLI). -/
inductive BitwardenService where
  | passwordManager
  | secretsManager
deriving DecidableEq

/-- Mirrors `BitwardenItemType`: the five vault item types. -/
inductive BitwardenItemType where
  | login
  | secureNote
  | card
  | identity
  | sshKey
deriving DecidableEq

namespace BitwardenItemType

/-- Mirrors `BitwardenItemType::from_u8`. -/
def fromU8 (value : Nat) : Option BitwardenItemType :=
  if value = 1 then some .login
  else if value = 2 then some .secureNote
  else if value = 3 then some .card
  else if value = 4 then some .identity
  else if value = 5 then some .sshKey
  else none

/-- Mirrors `BitwardenItemType::to_u8` (the discriminant values 1..5). -/
def toU8 : BitwardenItemType → Nat
  | .login => 1
  | .secureNote => 2
  | .card => 3
  | .identity => 4
  | .sshKey => 5

/-- Mirrors `BitwardenItemType::from_str` (case-insensitive). -/
def fromStr (s : String) : Option BitwardenItemType :=
  let l := (strToLower s)
  if l = "login" then some .login
  else if l = "securenote" ∨ l = "note" ∨ l = "secure_note" then some .secureNote
  else if l = "card" then some .card
  else if l = "identity" then some .identity
  else if l = "sshkey" ∨ l = "ssh_key" ∨ l = "ssh" then some .sshKey
  else none

end BitwardenItemType

/-- Mirrors `BitwardenFieldType`: custom-field kinds. -/
inductive BitwardenFieldType where
  | text
  | hidden
  | boolean
deriving DecidableEq

namespace BitwardenFieldType

/-- Mirrors `BitwardenFieldType::from_u8`. -/
def fromU8 (value : Nat) : Option BitwardenFieldType :=
  if value = 0 then some .text
  else if value = 1 then some .hidden
  else if value = 2 then some .boolean
  else none

/-- Mirrors `BitwardenFieldType::to_u8` (the discriminant values 0..2). -/
def toU8 : BitwardenFieldType → Nat
  | .text => 0
  | .hidden => 1
  | .boolean => 2

end BitwardenFieldType

/-! ### Vault item data model (rich-item service)

Metadata fields that no modelled operation reads (`object`, `favorite`,
`reprompt`, timestamps, `folderId`, `passwordHistory`, `uris`,
`passwordRevisionDate`, `linkedId`, `organizationId`, `collectionIds`) are
omitted from the structures below; every field the adapter's logic touches
is kept under its source name. -/

/-- Mirrors `BitwardenLogin` (username, password, totp). -/
structure BitwardenLogin where
  username : Option String
  password : Option String
  totp : Option String
deriving DecidableEq

/-- Mirrors `BitwardenCard`. -/
structure BitwardenCard where
  cardholderName : Option String
  number : Option String
  brand : Option String
  expMonth : Option String
  expYear : Option String
  code : Option String
deriving DecidableEq

/-- Mirrors `BitwardenIdentity`. -/
structure BitwardenIdentity where
  title : Option String
  firstName : Option String
  middleName : Option String
  lastName : Option String
  username : Option String
  company : Option String
  email : Option String
  phone : Option String
deriving DecidableEq

/-- Mirrors `BitwardenSshKey`. -/
structure BitwardenSshKey where
  privateKey : Option String
  publicKey : Option String
  keyFingerprint : Option String
deriving DecidableEq

/-- Mirrors `BitwardenField` (one custom field of a vault item). -/
structure BitwardenField where
  name : Option String
  value : Option String
  fieldType : BitwardenFieldType
deriving DecidableEq

/-- Mirrors `BitwardenItem` (a vault item as returned by `bw`). -/
structure BitwardenItem where
  id : String
  name : String
  itemType : BitwardenItemType
  fields : Option (List BitwardenField)
  notes : Option String
  login : Option BitwardenLogin
  card : Option BitwardenCard
  identity : Option BitwardenIdentity
  sshKey : Option BitwardenSshKey
deriving DecidableEq

/-- An item is well formed when its declared type tag agrees with which
typed payload is present (exactly the tagged one). -/
def wellFormedItem (item : BitwardenItem) : Bool :=
  match item.itemType with
  | .login => item.login.isSome && item.card.isNone && item.identity.isNone && item.sshKey.isNone
  | .secureNote => item.login.isNone && item.card.isNone && item.identity.isNone && item.sshKey.isNone
  | .card => item.login.isNone && item.card.isSome && item.identity.isNone && item.sshKey.isNone
  | .identity => item.login.isNone && item.card.isNone && item.identity.isSome && item.sshKey.isNone
  | .sshKey => item.login.isNone && item.card.isNone && item.identity.isNone && item.sshKey.isSome

/-- Mirrors `BitwardenConfig`: the typed configuration produced by URI
parsing.  `folderTemplate` stands for the source's folder-name template
configuration field. -/
structure BitwardenConfig where
  service : BitwardenService
  organizationId : Option String
  collectionId : Option String
  server : Option String
  folderTemplate : Option String
  projectId : Option String
  accessToken : Option String
  defaultItemType : Option BitwardenItemType
  defaultField : Option String
deriving DecidableEq

/-- Mirrors `impl Default for BitwardenConfig`. -/
def BitwardenConfig.default : BitwardenConfig where
  service := .passwordManager
  organizationId := none
  collectionId := none
  server := none
  folderTemplate := none
  projectId := none
  accessToken := none
  defaultItemType := some .login
  defaultField := none

/-- The environment variables the adapter consults at call time, as an
explicit record (`std::env::var(..).ok()` becomes a field read). -/
structure EnvVars where
  defaultType : Option String
  defaultField : Option String
  organization : Option String
  collection : Option String
  accessToken : Option String
deriving DecidableEq

/-- An environment with no relevant variable set. -/
def EnvVars.empty : EnvVars :=
  ⟨none, none, none, none, none⟩

/-! ### Custom-field lookup (`extract_from_custom_fields`) -/

/-- First loop of `extract_from_custom_fields`: first field whose name
matches exactly (ASCII case-insensitive); yields that field's value
option. -/
def scanExactField (fieldName : String) : List BitwardenField → Option (Option String)
  | [] => none
  | f :: rest =>
    match f.name with
    | some nm =>
        if eqIgnoreAsciiCase nm fieldName then some f.value
        else scanExactField fieldName rest
    | none => scanExactField fieldName rest

/-- Second loop of `extract_from_custom_fields`: first field whose
lower-cased name contains the lower-cased looked-up name. -/
def scanSubField (fieldName : String) : List BitwardenField → Option (Option String)
  | [] => none
  | f :: rest =>
    match f.name with
    | some nm =>
        if strOccurs (strToLower nm) (strToLower fieldName) then some f.value
        else scanSubField fieldName rest
    | none => scanSubField fieldName rest

/-- Mirrors `extract_from_custom_fields`: exact case-insensitive name match
first, then substring match; no match (or no field list) is `Ok(None)`. -/
def extract_from_custom_fields (item : BitwardenItem) (fieldName : String) :
    Except String (Option String) :=
  match item.fields with
  | some fields =>
    match scanExactField fieldName fields with
    | some v => .ok v
    | none =>
      match scanSubField fieldName fields with
      | some v => .ok v
      | none => .ok none
  | none => .ok none

/-- The pure value of `extract_from_custom_fields` (which never errors). -/
def customLookup (item : BitwardenItem) (fieldName : String) : Option String :=
  match item.fields with
  | some fields =>
    match scanExactField fieldName fields with
    | some v => v
    | none =>
      match scanSubField fieldName fields with
      | some v => v
      | none => none
  | none => none

/-- The common tail of every extractor: `if let Some(value) =
extract_from_custom_fields(item, hint)? { Ok(Some(..)) } else { Ok(None) }`. -/
def customFallback (item : BitwardenItem) (fieldHint : String) :
    Except String (Option String) :=
  match extract_from_custom_fields item fieldHint with
  | .error e => .error e
  | .ok (some v) => .ok (some v)
  | .ok none => .ok none

/-! ### Per-type extraction (`extract_from_*_item`) -/

/-- Mirrors `extract_from_login_item`. -/
def extract_from_login_item (item : BitwardenItem) (fieldHint : String)
    (requestedField : Option String) : Except String (Option String) :=
  match item.login with
  | some login =>
    match requestedField with
    | some fieldName =>
      let fn := (strToLower fieldName)
      if fn = "password" then .ok login.password
      else if fn = "username" then .ok login.username
      else if fn = "totp" then .ok login.totp
      else
        match extract_from_custom_fields item fieldName with
        | .error e => .error e
        | .ok (some v) => .ok (some v)
        | .ok none => .ok none
    | none =>
      let hintLower := (strToLower fieldHint)
      if (strOccurs hintLower "password" || strOccurs hintLower "pass"
          || strOccurs hintLower "secret" || strOccurs hintLower "token")
          && login.password.isSome then
        .ok login.password
      else if (strOccurs hintLower "user" || strOccurs hintLower "login")
          && login.username.isSome then
        .ok login.username
      else if (strOccurs hintLower "totp" || strOccurs hintLower "2fa"
          || strOccurs hintLower "mfa") && login.totp.isSome then
        .ok login.totp
      else if login.password.isSome then .ok login.password
      else if login.username.isSome then .ok login.username
      else customFallback item fieldHint
  | none => customFallback item fieldHint

/-- The default cascade of `extract_from_secure_note_item`: legacy `value`
custom field, then the hint, then the raw notes text. -/
def secureNoteDefault (item : BitwardenItem) (fieldHint : String) :
    Except String (Option String) :=
  match extract_from_custom_fields item "value" with
  | .error e => .error e
  | .ok (some v) => .ok (some v)
  | .ok none =>
    match extract_from_custom_fields item fieldHint with
    | .error e => .error e
    | .ok (some v) => .ok (some v)
    | .ok none => .ok item.notes

/-- Mirrors `extract_from_secure_note_item`: a requested field is checked
against the custom fields first, and on a miss resolution continues with
the default cascade. -/
def extract_from_secure_note_item (item : BitwardenItem) (fieldHint : String)
    (requestedField : Option String) : Except String (Option String) :=
  match requestedField with
  | some fieldName =>
    match extract_from_custom_fields item fieldName with
    | .error e => .error e
    | .ok (some v) => .ok (some v)
    | .ok none => secureNoteDefault item fieldHint
  | none => secureNoteDefault item fieldHint

/-- Mirrors `extract_from_card_item`. -/
def extract_from_card_item (item : BitwardenItem) (fieldHint : String)
    (requestedField : Option String) : Except String (Option String) :=
  match item.card with
  | some card =>
    match requestedField with
    | some fieldName =>
      let fn := (strToLower fieldName)
      if fn = "number" then .ok card.number
      else if fn = "code" ∨ fn = "cvv" ∨ fn = "cvc" then .ok card.code
      else if fn = "cardholder" ∨ fn = "name" then .ok card.cardholderName
      else if fn = "brand" then .ok card.brand
      else if fn = "expmonth" ∨ fn = "exp_month" then .ok card.expMonth
      else if fn = "expyear" ∨ fn = "exp_year" then .ok card.expYear
      else
        match extract_from_custom_fields item fieldName with
        | .error e => .error e
        | .ok (some v) => .ok (some v)
        | .ok none => .ok none
    | none =>
      let hintLower := (strToLower fieldHint)
      if (strOccurs hintLower "number" || strOccurs hintLower "card")
          && card.number.isSome then
        .ok card.number
      else if (strOccurs hintLower "code" || strOccurs hintLower "cvv"
          || strOccurs hintLower "cvc") && card.code.isSome then
        .ok card.code
      else if card.number.isSome then .ok card.number
      else customFallback item fieldHint
  | none => customFallback item fieldHint

/-- Mirrors `extract_from_identity_item`. -/
def extract_from_identity_item (item : BitwardenItem) (fieldHint : String)
    (requestedField : Option String) : Except String (Option String) :=
  match item.identity with
  | some identity =>
    match requestedField with
    | some fieldName =>
      let fn := (strToLower fieldName)
      if fn = "email" then .ok identity.email
      else if fn = "username" then .ok identity.username
      else if fn = "phone" then .ok identity.phone
      else if fn = "firstname" ∨ fn = "first_name" then .ok identity.firstName
      else if fn = "lastname" ∨ fn = "last_name" then .ok identity.lastName
      else if fn = "company" then .ok identity.company
      else
        match extract_from_custom_fields item fieldName with
        | .error e => .error e
        | .ok (some v) => .ok (some v)
        | .ok none => .ok none
    | none =>
      let hintLower := (strToLower fieldHint)
      if (strOccurs hintLower "email" || strOccurs hintLower "mail")
          && identity.email.isSome then
        .ok identity.email
      else if (strOccurs hintLower "phone" || strOccurs hintLower "tel")
          && identity.phone.isSome then
        .ok identity.phone
      else if (strOccurs hintLower "user" || strOccurs hintLower "login")
          && identity.username.isSome then
        .ok identity.username
      else if identity.email.isSome then .ok identity.email
      else if identity.username.isSome then .ok identity.username
      else customFallback item fieldHint
  | none => customFallback item fieldHint

/-- Mirrors `extract_from_ssh_key_item`. -/
def extract_from_ssh_key_item (item : BitwardenItem) (fieldHint : String)
    (requestedField : Option String) : Except String (Option String) :=
  match item.sshKey with
  | some sshKey =>
    match requestedField with
    | some fieldName =>
      let fn := (strToLower fieldName)
      if fn = "private_key" ∨ fn = "privatekey" ∨ fn = "private" then
        .ok sshKey.privateKey
      else if fn = "public_key" ∨ fn = "publickey" ∨ fn = "public" then
        .ok sshKey.publicKey
      else if fn = "fingerprint" ∨ fn = "key_fingerprint" then
        .ok sshKey.keyFingerprint
      else
        match extract_from_custom_fields item fieldName with
        | .error e => .error e
        | .ok (some v) => .ok (some v)
        | .ok none => .ok none
    | none =>
      let hintLower := (strToLower fieldHint)
      if (strOccurs hintLower "public" || strOccurs hintLower "pub")
          && sshKey.publicKey.isSome then
        .ok sshKey.publicKey
      else if (strOccurs hintLower "fingerprint" || strOccurs hintLower "finger")
          && sshKey.keyFingerprint.isSome then
        .ok sshKey.keyFingerprint
      else if sshKey.privateKey.isSome then .ok sshKey.privateKey
      else customFallback item fieldHint
  | none => customFallback item fieldHint

/-- Mirrors `extract_value_from_item`: the requested field comes from the
default-field environment override, else the configuration's default field;
then dispatch on the item's declared type. -/
def extract_value_from_item (cfg : BitwardenConfig) (env : EnvVars)
    (item : BitwardenItem) (fieldHint : String) : Except String (Option String) :=
  let requestedField := env.defaultField.orElse fun _ => cfg.defaultField
  match item.itemType with
  | .login => extract_from_login_item item fieldHint requestedField
  | .secureNote => extract_from_secure_note_item item fieldHint requestedField
  | .card => extract_from_card_item item fieldHint requestedField
  | .identity => extract_from_identity_item item fieldHint requestedField
  | .sshKey => extract_from_ssh_key_item item fieldHint requestedField

/-! ### Hint-based default field names and call-time overrides -/

/-- Mirrors `BitwardenItemType::default_field_for_hint`. -/
def BitwardenItemType.default_field_for_hint (t : BitwardenItemType) (hint : String) : String :=
  let hintLower := (strToLower hint)
  match t with
  | .login =>
    if strOccurs hintLower "user" || strOccurs hintLower "login" then "username"
    else if strOccurs hintLower "totp" || strOccurs hintLower "2fa"
        || strOccurs hintLower "mfa" then "totp"
    else "password"
  | .secureNote => "value"
  | .card =>
    if strOccurs hintLower "code" || strOccurs hintLower "cvv"
        || strOccurs hintLower "cvc" then "code"
    else if strOccurs hintLower "name" || strOccurs hintLower "cardholder" then "cardholder"
    else if strOccurs hintLower "number" || strOccurs hintLower "card" then "number"
    else hint
  | .identity =>
    if strOccurs hintLower "phone" || strOccurs hintLower "tel" then "phone"
    else if strOccurs hintLower "user" || strOccurs hintLower "login" then "username"
    else if strOccurs hintLower "email" || strOccurs hintLower "mail" then "email"
    else hint
  | .sshKey =>
    if strOccurs hintLower "public" || strOccurs hintLower "pub" then "public_key"
    else if strOccurs hintLower "passphrase" || strOccurs hintLower "password" then "passphrase"
    else if strOccurs hintLower "private" || strOccurs hintLower "key" then "private_key"
    else "private_key"

/-- Organization id as resolved at call time (get/set/update/create):
`std::env::var("BITWARDEN_ORGANIZATION").ok().or_else(|| config.organization_id)`. -/
def resolveOrgId (cfg : BitwardenConfig) (env : EnvVars) : Option String :=
  env.organization.orElse fun _ => cfg.organizationId

/-- Collection id as resolved in item creation:
`std::env::var("BITWARDEN_COLLECTION").ok().or_else(|| config.collection_id)`. -/
def resolveCollectionId (cfg : BitwardenConfig) (env : EnvVars) : Option String :=
  env.collection.orElse fun _ => cfg.collectionId

/-- Default field as resolved in `update_existing_item` / `create_new_item`:
environment override, else configuration, else the type's hint default. -/
def resolveTargetField (cfg : BitwardenConfig) (env : EnvVars)
    (itemType : BitwardenItemType) (hint : String) : String :=
  ((env.defaultField.orElse fun _ => cfg.defaultField).getD
    (itemType.default_field_for_hint hint))

/-- Item type as resolved in `create_new_item`: the parsed environment
override, else the configuration's default item type, else Login. -/
def resolveItemType (cfg : BitwardenConfig) (env : EnvVars) : BitwardenItemType :=
  (((env.defaultType.bind BitwardenItemType.fromStr).orElse
    fun _ => cfg.defaultItemType).getD .login)

/-- The access token handed to the `bws` child process in
`execute_bws_command`: the configuration's token if present, else the
`BWS_ACCESS_TOKEN` environment variable. -/
def bwsAccessToken (cfg : BitwardenConfig) (env : EnvVars) : Option String :=
  match cfg.accessToken with
  | some token => some token
  | none => env.accessToken

/-! ### Item-name formatting and the set-time search (`set_to_password_manager`) -/

/-- Mirrors `format_folder_name`: the folder template (default
`secretspec/{project}/{profile}`) with placeholders substituted. -/
def format_folder_name (cfg : BitwardenConfig) (project profile : String) : String :=
  strReplace (strReplace (cfg.folderTemplate.getD "secretspec/{project}/{profile}")
    "{project}" project) "{profile}" profile

/-- Mirrors `format_item_name`: folder name plus `/` plus the key. -/
def format_item_name (cfg : BitwardenConfig) (project key profile : String) : String :=
  format_folder_name cfg project profile ++ "/" ++ key

/-- What `set_to_password_manager` decides to do once the backend has
returned the item list. -/
inductive SetAction where
  | update (item : BitwardenItem)
  | create
deriving DecidableEq

/-- The item-selection step of `set_to_password_manager`: three search
strategies tried in order over the listed items (legacy compound name,
exact key, case-insensitive name containment); if none hits, a new item is
created. -/
def set_to_password_manager_search (cfg : BitwardenConfig)
    (project key profile : String) (items : List BitwardenItem) : SetAction :=
  let legacyItemName := format_item_name cfg project key profile
  match items.find? (fun item => item.name == legacyItemName) with
  | some item => .update item
  | none =>
    match items.find? (fun item => item.name == key) with
    | some item => .update item
    | none =>
      match items.find? (fun item => strOccurs (strToLower item.name) (strToLower key)) with
      | some item => .update item
      | none => .create

/-! ### URI-to-configuration parsing (`TryFrom<&Url> for BitwardenConfig`)

The `url::Url` argument is modelled by the four accessors the parser
reads: `scheme()`, `username()` (empty string when absent), `host_str()`
and `query_pairs()` (in order). -/

/-- The parts the parser reads from a `url::Url`. -/
structure UrlParts where
  scheme : String
  username : String
  host : Option String
  queryPairs : List (String × String)
deriving DecidableEq

/-- One Password-Manager query pair applied to the configuration. -/
def applyPmQueryPair (config : BitwardenConfig) (kv : String × String) :
    BitwardenConfig :=
  match kv.1 with
  | "org" | "organization" => { config with organizationId := some kv.2 }
  | "collection" => { config with collectionId := some kv.2 }
  | "server" => { config with server := some kv.2 }
  | "folder" => { config with folderTemplate := some kv.2 }
  | "type" =>
    match BitwardenItemType.fromStr kv.2 with
    | some itemType => { config with defaultItemType := some itemType }
    | none => config
  | "field" => { config with defaultField := some kv.2 }
  | _ => config

/-- One Secrets-Manager query pair applied to the configuration. -/
def applySmQueryPair (config : BitwardenConfig) (kv : String × String) :
    BitwardenConfig :=
  match kv.1 with
  | "project" => { config with projectId := some kv.2 }
  | "token" => { config with accessToken := some kv.2 }
  | "type" =>
    match BitwardenItemType.fromStr kv.2 with
    | some itemType => { config with defaultItemType := some itemType }
    | none => config
  | "field" => { config with defaultField := some kv.2 }
  | _ => config

/-- The scheme-mismatch error message of the parser. -/
def invalidSchemeMessage (scheme : String) : String :=
  "Invalid scheme '" ++ scheme ++
    "' for Bitwarden provider. Use 'bitwarden://' for Password Manager or 'bws://' for Secrets Manager"

/-- Mirrors `TryFrom<&Url> for BitwardenConfig`. -/
def bitwardenConfigOfUrl (url : UrlParts) : Except String BitwardenConfig :=
  if url.scheme = "bitwarden" then
    let config := { BitwardenConfig.default with service := .passwordManager }
    let config :=
      match url.host with
      | some host =>
        if host ≠ "localhost" then
          if url.username ≠ "" then
            { config with organizationId := some url.username,
                          collectionId := some host }
          else
            { config with collectionId := some host }
        else config
      | none => config
    .ok (url.queryPairs.foldl applyPmQueryPair config)
  else if url.scheme = "bws" then
    let config := { BitwardenConfig.default with service := .secretsManager }
    let config :=
      match url.host with
      | some host =>
        if host ≠ "localhost" then { config with projectId := some host }
        else config
      | none => config
    .ok (url.queryPairs.foldl applySmQueryPair config)
  else
    .error (invalidSchemeMessage url.scheme)

/-! ### Secrets Manager set flow (`set_to_secrets_manager`) -/

/-- Mirrors `BitwardenSecret` (a flat key-value secret from `bws`). -/
structure BitwardenSecret where
  object : Option String
  id : String
  organizationId : String
  projectId : String
  key : String
  value : String
  note : String
  creationDate : String
  revisionDate : String
deriving DecidableEq

/-- One `bws` subprocess invocation (the calls `set_to_secrets_manager`
can spawn, in order). -/
inductive BwsCmd where
  | createSecret (name value projectId note : String)
  | listSecrets (projectId : String)
  | editSecret (id key value : String)
deriving DecidableEq

/-- The outcomes of the external `bws` calls, as an oracle: what the
create call, the list call and the edit call would return. -/
structure BwsBackend where
  createResult : Except String Unit
  listResult : Except String (List BitwardenSecret)
  editResult : Except String Unit

/-- Mirrors `set_to_secrets_manager`, returning the overall result together
with the trace of `bws` processes spawned, in order.  Creation is attempted
first; only an `already exists` failure triggers list-then-edit. -/
def set_to_secrets_manager (cfg : BitwardenConfig) (backend : BwsBackend)
    (project key value : String) : Except String Unit × List BwsCmd :=
  let secretName := project ++ "_" ++ key
  let note := "SecretSpec managed secret: " ++ project ++ "/" ++ key
  match cfg.projectId with
  | none =>
    (.error ("Project ID is required for Bitwarden Secrets Manager. Use bws://project-id or bws://?project=project-id"),
     [])
  | some projectId =>
    match backend.createResult with
    | .ok _ => (.ok (), [.createSecret secretName value projectId note])
    | .error msg =>
      if strOccurs msg "already exists" then
        match backend.listResult with
        | .ok secrets =>
          match secrets.find? (fun s => s.key == secretName || s.key == key) with
          | some s =>
            (backend.editResult.map fun _ => (),
             [.createSecret secretName value projectId note, .listSecrets projectId,
              .editSecret s.id secretName value])
          | none =>
            (.error ("Secret creation failed with 'already exists' but could not find it in the list"),
             [.createSecret secretName value projectId note, .listSecrets projectId])
        | .error e =>
          (.error e, [.createSecret secretName value projectId note, .listSecrets projectId])
      else
        (.error msg, [.createSecret secretName value projectId note])

/-! ### Spec-side override resolution (from the specification's words)

These four definitions follow the specification sentence "an explicit
field override is authoritative: well-known names map to the typed
sub-field, any other name is looked up in the custom-field list, absence
yields not-found" — they are compared with the source-derived extractors
in the C1 theorems. -/

/-- Specification-side predicate for the exact custom-field scan: the
field has a name and it matches the looked-up name ASCII
case-insensitively. -/
def exactFieldPred (n : String) (f : BitwardenField) : Bool :=
  match f.name with
  | some nm => eqIgnoreAsciiCase nm n
  | none => false

/-- Specification-side predicate for the substring custom-field scan: the
field has a name whose lower-casing contains the lower-cased looked-up
name. -/
def subFieldPred (n : String) (f : BitwardenField) : Bool :=
  match f.name with
  | some nm => strOccurs (strToLower nm) (strToLower n)
  | none => false

/-- Override resolution for Login items as the specification words it. -/
def loginOverrideSpec (login : BitwardenLogin) (item : BitwardenItem)
    (o : String) : Option String :=
  if (strToLower o) = "password" then login.password
  else if (strToLower o) = "username" then login.username
  else if (strToLower o) = "totp" then login.totp
  else customLookup item o

/-- Override resolution for Card items as the specification words it. -/
def cardOverrideSpec (card : BitwardenCard) (item : BitwardenItem)
    (o : String) : Option String :=
  if (strToLower o) = "number" then card.number
  else if (strToLower o) = "code" ∨ (strToLower o) = "cvv" ∨ (strToLower o) = "cvc" then card.code
  else if (strToLower o) = "cardholder" ∨ (strToLower o) = "name" then card.cardholderName
  else if (strToLower o) = "brand" then card.brand
  else if (strToLower o) = "expmonth" ∨ (strToLower o) = "exp_month" then card.expMonth
  else if (strToLower o) = "expyear" ∨ (strToLower o) = "exp_year" then card.expYear
  else customLookup item o

/-- Override resolution for Identity items as the specification words it. -/
def identityOverrideSpec (identity : BitwardenIdentity) (item : BitwardenItem)
    (o : String) : Option String :=
  if (strToLower o) = "email" then identity.email
  else if (strToLower o) = "username" then identity.username
  else if (strToLower o) = "phone" then identity.phone
  else if (strToLower o) = "firstname" ∨ (strToLower o) = "first_name" then identity.firstName
  else if (strToLower o) = "lastname" ∨ (strToLower o) = "last_name" then identity.lastName
  else if (strToLower o) = "company" then identity.company
  else customLookup item o

/-- Override resolution for SshKey items as the specification words it. -/
def sshKeyOverrideSpec (sshKey : BitwardenSshKey) (item : BitwardenItem)
    (o : String) : Option String :=
  if (strToLower o) = "private_key" ∨ (strToLower o) = "privatekey" ∨ (strToLower o) = "private" then
    sshKey.privateKey
  else if (strToLower o) = "public_key" ∨ (strToLower o) = "publickey" ∨ (strToLower o) = "public" then
    sshKey.publicKey
  else if (strToLower o) = "fingerprint" ∨ (strToLower o) = "key_fingerprint" then
    sshKey.keyFingerprint
  else customLookup item o

end Secretspec

namespace Secretspec

/-! ### Helper lemmas shared by several claims -/

/-- `extract_from_custom_fields` is the pure `customLookup` wrapped in `Ok`. -/
theorem extract_from_custom_fields_eq (item : BitwardenItem) (n : String) :
    extract_from_custom_fields item n = .ok (customLookup item n) := by
  simp only [extract_from_custom_fields, customLookup]
  repeat' split
  all_goals rfl

/-- The shared custom-field fallback is the pure lookup wrapped in `Ok`. -/
theorem customFallback_eq (item : BitwardenItem) (hint : String) :
    customFallback item hint = .ok (customLookup item hint) := by
  simp only [customFallback, extract_from_custom_fields_eq]
  cases customLookup item hint with
  | none => rfl
  | some v => rfl

/-- `extract_from_login_item` never returns an error. -/
theorem extract_from_login_item_isOk (item : BitwardenItem) (hint : String)
    (rf : Option String) : ∃ v, extract_from_login_item item hint rf = .ok v := by
  simp only [extract_from_login_item, customFallback_eq, extract_from_custom_fields_eq]
  repeat' split
  all_goals first
    | exact ⟨_, rfl⟩
    | simp_all

/-- `secureNoteDefault` never returns an error. -/
theorem secureNoteDefault_isOk (item : BitwardenItem) (hint : String) :
    ∃ v, secureNoteDefault item hint = .ok v := by
  simp only [secureNoteDefault, extract_from_custom_fields_eq]
  repeat' split
  all_goals first
    | exact ⟨_, rfl⟩
    | simp_all

/-- `extract_from_secure_note_item` never returns an error. -/
theorem extract_from_secure_note_item_isOk (item : BitwardenItem) (hint : String)
    (rf : Option String) : ∃ v, extract_from_secure_note_item item hint rf = .ok v := by
  simp only [extract_from_secure_note_item, secureNoteDefault,
    extract_from_custom_fields_eq]
  repeat' split
  all_goals first
    | exact ⟨_, rfl⟩
    | simp_all

/-- `extract_from_card_item` never returns an error. -/
theorem extract_from_card_item_isOk (item : BitwardenItem) (hint : String)
    (rf : Option String) : ∃ v, extract_from_card_item item hint rf = .ok v := by
  simp only [extract_from_card_item, customFallback_eq, extract_from_custom_fields_eq]
  repeat' split
  all_goals first
    | exact ⟨_, rfl⟩
    | simp_all

/-- `extract_from_identity_item` never returns an error. -/
theorem extract_from_identity_item_isOk (item : BitwardenItem) (hint : String)
    (rf : Option String) : ∃ v, extract_from_identity_item item hint rf = .ok v := by
  simp only [extract_from_identity_item, customFallback_eq, extract_from_custom_fields_eq]
  repeat' split
  all_goals first
    | exact ⟨_, rfl⟩
    | simp_all

/-- `extract_from_ssh_key_item` never returns an error. -/
theorem extract_from_ssh_key_item_isOk (item : BitwardenItem) (hint : String)
    (rf : Option String) : ∃ v, extract_from_ssh_key_item item hint rf = .ok v := by
  simp only [extract_from_ssh_key_item, customFallback_eq, extract_from_custom_fields_eq]
  repeat' split
  all_goals first
    | exact ⟨_, rfl⟩
    | simp_all

end Secretspec

/-- C2: for every well-formed vault item (type tag consistent with its
payload), every hint string and every override configuration, field
resolution (`extract_value_from_item` and the per-type extractors it
dispatches to) returns `Ok` — `Some value` or `None` — never an `Err`. -/
theorem extract_value_from_item_total (cfg : Secretspec.BitwardenConfig)
    (env : Secretspec.EnvVars) (item : Secretspec.BitwardenItem) (hint : String)
    (_h : Secretspec.wellFormedItem item = true) :
    ∃ v, Secretspec.extract_value_from_item cfg env item hint = .ok v := by
  unfold Secretspec.extract_value_from_item
  cases item.itemType with
  | login => exact Secretspec.extract_from_login_item_isOk ..
  | secureNote => exact Secretspec.extract_from_secure_note_item_isOk ..
  | card => exact Secretspec.extract_from_card_item_isOk ..
  | identity => exact Secretspec.extract_from_identity_item_isOk ..
  | sshKey => exact Secretspec.extract_from_ssh_key_item_isOk ..

/-- Witness for C2: a concrete well-formed Login item resolves to `Ok`. -/
theorem extract_value_from_item_total_witness :
    Secretspec.wellFormedItem
      { id := "id1", name := "API_KEY", itemType := .login, fields := none,
        notes := none,
        login := some { username := some "u", password := some "p", totp := none },
        card := none, identity := none, sshKey := none } = true ∧
    ∃ v, Secretspec.extract_value_from_item Secretspec.BitwardenConfig.default
        Secretspec.EnvVars.empty
        { id := "id1", name := "API_KEY", itemType := .login, fields := none,
          notes := none,
          login := some { username := some "u", password := some "p", totp := none },
          card := none, identity := none, sshKey := none } "API_KEY" = .ok v :=
  ⟨by decide,
   extract_value_from_item_total Secretspec.BitwardenConfig.default
     Secretspec.EnvVars.empty _ "API_KEY" (by decide)⟩

/-- Helper: the first exact-scan loop returns the first field (in
declaration order) satisfying the exact-match predicate. -/
theorem scanExactField_eq_find (n : String) (fields : List Secretspec.BitwardenField) :
    Secretspec.scanExactField n fields =
      (fields.find? (Secretspec.exactFieldPred n)).map (·.value) := by
  induction fields with
  | nil => rfl
  | cons f rest ih =>
    cases hnm : f.name with
    | none =>
      simp [Secretspec.scanExactField, List.find?, Secretspec.exactFieldPred, hnm, ih]
    | some nm =>
      by_cases hc : Secretspec.eqIgnoreAsciiCase nm n = true
      · simp [Secretspec.scanExactField, List.find?, Secretspec.exactFieldPred, hnm, hc]
      · simp [Secretspec.scanExactField, List.find?, Secretspec.exactFieldPred, hnm, hc, ih]

/-- Helper: the substring-scan loop returns the first field (in declaration
order) satisfying the substring predicate. -/
theorem scanSubField_eq_find (n : String) (fields : List Secretspec.BitwardenField) :
    Secretspec.scanSubField n fields =
      (fields.find? (Secretspec.subFieldPred n)).map (·.value) := by
  induction fields with
  | nil => rfl
  | cons f rest ih =>
    cases hnm : f.name with
    | none =>
      simp [Secretspec.scanSubField, List.find?, Secretspec.subFieldPred, hnm, ih]
    | some nm =>
      by_cases hc : Secretspec.strOccurs (Secretspec.strToLower nm) (Secretspec.strToLower n) = true
      · simp [Secretspec.scanSubField, List.find?, Secretspec.subFieldPred, hnm, hc]
      · simp [Secretspec.scanSubField, List.find?, Secretspec.subFieldPred, hnm, hc, ih]

/-- C9: custom-field lookup scans for an exact (ASCII case-insensitive)
name match first and only on failure rescans for a case-insensitive
substring match; each scan returns the first matching field in declaration
order (`List.find?`), and if neither scan matches the result is `Ok None`,
not an error. -/
theorem extract_from_custom_fields_spec (item : Secretspec.BitwardenItem)
    (n : String) :
    Secretspec.extract_from_custom_fields item n =
      .ok (match item.fields with
           | none => none
           | some fields =>
             match fields.find? (Secretspec.exactFieldPred n) with
             | some f => f.value
             | none =>
               match fields.find? (Secretspec.subFieldPred n) with
               | some f => f.value
               | none => none) := by
  rw [Secretspec.extract_from_custom_fields_eq]
  simp only [Secretspec.customLookup]
  cases item.fields with
  | none => rfl
  | some fields =>
    simp only [scanExactField_eq_find, scanSubField_eq_find]
    cases h1 : fields.find? (Secretspec.exactFieldPred n) with
    | some f => simp
    | none =>
      cases h2 : fields.find? (Secretspec.subFieldPred n) with
      | some f => simp
      | none => simp

/-- C10: the numeric encodings of item types and custom-field kinds
round-trip: `fromU8 (toU8 t) = some t` for every item type `t`, with
`fromU8` returning `none` exactly outside `1..=5`; and likewise for field
kinds with the range `0..=2`. -/
theorem itemType_fieldType_u8_roundtrip :
    (∀ t : Secretspec.BitwardenItemType,
        Secretspec.BitwardenItemType.fromU8 (Secretspec.BitwardenItemType.toU8 t) = some t) ∧
    (∀ n : Nat, (n < 1 ∨ 5 < n) → Secretspec.BitwardenItemType.fromU8 n = none) ∧
    (∀ f : Secretspec.BitwardenFieldType,
        Secretspec.BitwardenFieldType.fromU8 (Secretspec.BitwardenFieldType.toU8 f) = some f) ∧
    (∀ n : Nat, 2 < n → Secretspec.BitwardenFieldType.fromU8 n = none) := by
  refine ⟨fun t => by cases t <;> rfl, fun n h => ?_, fun f => by cases f <;> rfl, fun n h => ?_⟩
  · simp only [Secretspec.BitwardenItemType.fromU8]
    have h1 : n ≠ 1 := by omega
    have h2 : n ≠ 2 := by omega
    have h3 : n ≠ 3 := by omega
    have h4 : n ≠ 4 := by omega
    have h5 : n ≠ 5 := by omega
    simp [h1, h2, h3, h4, h5]
  · simp only [Secretspec.BitwardenFieldType.fromU8]
    have h0 : n ≠ 0 := by omega
    have h1 : n ≠ 1 := by omega
    have h2 : n ≠ 2 := by omega
    simp [h0, h1, h2]

/-- Witness for C10 at concrete inputs: 6 is outside 1..=5 and 3 is outside
0..=2, and the hypotheses of the round-trip theorem hold there. -/
theorem itemType_fieldType_u8_roundtrip_witness :
    Secretspec.BitwardenItemType.fromU8 6 = none ∧
    Secretspec.BitwardenFieldType.fromU8 3 = none ∧
    Secretspec.BitwardenItemType.fromU8
      (Secretspec.BitwardenItemType.toU8 .card) = some .card :=
  ⟨itemType_fieldType_u8_roundtrip.2.1 6 (by decide),
   itemType_fieldType_u8_roundtrip.2.2.2 3 (by decide),
   itemType_fieldType_u8_roundtrip.1 .card⟩

/-- C1 counterexample: for a SecureNote item with no custom fields, a
configured field override that names nothing present does NOT yield
"not found" — resolution falls back to the notes text.  The claim, as
stated, predicts `Ok None` here. -/
theorem override_authoritative_counterexample :
    Secretspec.extract_value_from_item
        { Secretspec.BitwardenConfig.default with defaultField := some "missing" }
        Secretspec.EnvVars.empty
        { id := "i1", name := "MY_NOTE", itemType := .secureNote, fields := none,
          notes := some "note-body", login := none, card := none,
          identity := none, sshKey := none } "KEY"
      = .ok (some "note-body") ∧
    some "note-body" ≠ (none : Option String) :=
  ⟨rfl, by decide⟩

/-- C1 (amended): for Login, Card, Identity and SshKey items whose typed
payload is present, an explicit field override is authoritative: a
well-known override name maps to the typed sub-field of the item's type
(even when that sub-field is absent), any other name is looked up only in
the custom-field list, and a miss yields "not found" with no fallback to
hints or defaults.  For SecureNote items the override is consulted first
against the custom-field list, but on a miss resolution falls back to the
legacy `value` custom field, then the hint, then the notes text. -/
theorem override_authoritative_amended :
    (∀ (item : Secretspec.BitwardenItem) (hint o : String)
        (lg : Secretspec.BitwardenLogin), item.login = some lg →
        Secretspec.extract_from_login_item item hint (some o) =
          .ok (Secretspec.loginOverrideSpec lg item o)) ∧
    (∀ (item : Secretspec.BitwardenItem) (hint o : String)
        (cd : Secretspec.BitwardenCard), item.card = some cd →
        Secretspec.extract_from_card_item item hint (some o) =
          .ok (Secretspec.cardOverrideSpec cd item o)) ∧
    (∀ (item : Secretspec.BitwardenItem) (hint o : String)
        (idt : Secretspec.BitwardenIdentity), item.identity = some idt →
        Secretspec.extract_from_identity_item item hint (some o) =
          .ok (Secretspec.identityOverrideSpec idt item o)) ∧
    (∀ (item : Secretspec.BitwardenItem) (hint o : String)
        (sk : Secretspec.BitwardenSshKey), item.sshKey = some sk →
        Secretspec.extract_from_ssh_key_item item hint (some o) =
          .ok (Secretspec.sshKeyOverrideSpec sk item o)) ∧
    (∀ (item : Secretspec.BitwardenItem) (hint o : String),
        Secretspec.extract_from_secure_note_item item hint (some o) =
          match Secretspec.customLookup item o with
          | some v => .ok (some v)
          | none => Secretspec.secureNoteDefault item hint) := by
  refine ⟨?_, ?_, ?_, ?_, ?_⟩
  · intro item hint o lg h
    simp only [Secretspec.extract_from_login_item, h, Secretspec.loginOverrideSpec,
      Secretspec.extract_from_custom_fields_eq]
    split_ifs <;>
      first
        | rfl
        | (cases Secretspec.customLookup item o <;> rfl)
  · intro item hint o cd h
    simp only [Secretspec.extract_from_card_item, h, Secretspec.cardOverrideSpec,
      Secretspec.extract_from_custom_fields_eq]
    split_ifs <;>
      first
        | rfl
        | (cases Secretspec.customLookup item o <;> rfl)
  · intro item hint o idt h
    simp only [Secretspec.extract_from_identity_item, h,
      Secretspec.identityOverrideSpec, Secretspec.extract_from_custom_fields_eq]
    split_ifs <;>
      first
        | rfl
        | (cases Secretspec.customLookup item o <;> rfl)
  · intro item hint o sk h
    simp only [Secretspec.extract_from_ssh_key_item, h,
      Secretspec.sshKeyOverrideSpec, Secretspec.extract_from_custom_fields_eq]
    split_ifs <;>
      first
        | rfl
        | (cases Secretspec.customLookup item o <;> rfl)
  · intro item hint o
    simp only [Secretspec.extract_from_secure_note_item,
      Secretspec.extract_from_custom_fields_eq]
    cases Secretspec.customLookup item o <;> rfl

/-- Witness for the amended C1 at a concrete Login item: the override
`apikey` names no typed sub-field and no custom field, so resolution is
`Ok None` even though the item has a password and the hint mentions
`pass`. -/
theorem override_authoritative_amended_witness :
    Secretspec.extract_from_login_item
        { id := "i2", name := "SVC", itemType := .login, fields := none,
          notes := none,
          login := some { username := some "u", password := some "p", totp := none },
          card := none, identity := none, sshKey := none }
        "my_pass" (some "apikey") = .ok none :=
  override_authoritative_amended.1
    { id := "i2", name := "SVC", itemType := .login, fields := none,
      notes := none,
      login := some { username := some "u", password := some "p", totp := none },
      card := none, identity := none, sshKey := none }
    "my_pass" "apikey" { username := some "u", password := some "p", totp := none }
    rfl

/-- C3 counterexample: when both the access-token configuration field and
the access-token environment variable are set, `execute_bws_command` hands
the child process the configuration's token, not the environment's. -/
theorem env_overrides_counterexample :
    Secretspec.bwsAccessToken
        { Secretspec.BitwardenConfig.default with accessToken := some "config-token" }
        { Secretspec.EnvVars.empty with accessToken := some "env-token" }
      = some "config-token" ∧ "config-token" ≠ "env-token" :=
  ⟨rfl, by decide⟩

/-- C3 (amended): when both the environment variable and the corresponding
configuration field are set, the environment variable wins for the
default item type (when its value parses), the default field, the
organization id and the collection id; for the access token the
configuration field takes precedence over the environment variable. -/
theorem env_overrides_amended (cfg : Secretspec.BitwardenConfig)
    (env : Secretspec.EnvVars) :
    (∀ v, env.organization = some v → Secretspec.resolveOrgId cfg env = some v) ∧
    (∀ v, env.collection = some v → Secretspec.resolveCollectionId cfg env = some v) ∧
    (∀ v, env.defaultField = some v →
      ∀ t hint, Secretspec.resolveTargetField cfg env t hint = v) ∧
    (∀ s t, env.defaultType = some s → Secretspec.BitwardenItemType.fromStr s = some t →
      Secretspec.resolveItemType cfg env = t) ∧
    (∀ v, cfg.accessToken = some v → Secretspec.bwsAccessToken cfg env = some v) := by
  refine ⟨?_, ?_, ?_, ?_, ?_⟩
  · intro v h; simp [Secretspec.resolveOrgId, h]
  · intro v h; simp [Secretspec.resolveCollectionId, h]
  · intro v h t hint; simp [Secretspec.resolveTargetField, h]
  · intro s t hs ht; simp [Secretspec.resolveItemType, hs, ht]
  · intro v h; simp [Secretspec.bwsAccessToken, h]

/-- Witness for the amended C3 at concrete values: with both sources set,
the environment wins for the four overrides and the configuration wins for
the access token. -/
theorem env_overrides_amended_witness :
    Secretspec.resolveOrgId
        { Secretspec.BitwardenConfig.default with organizationId := some "org-cfg" }
        { Secretspec.EnvVars.empty with organization := some "org-env" } = some "org-env" ∧
    Secretspec.resolveCollectionId
        { Secretspec.BitwardenConfig.default with collectionId := some "col-cfg" }
        { Secretspec.EnvVars.empty with collection := some "col-env" } = some "col-env" ∧
    Secretspec.resolveTargetField
        { Secretspec.BitwardenConfig.default with defaultField := some "field-cfg" }
        { Secretspec.EnvVars.empty with defaultField := some "field-env" }
        .login "hint" = "field-env" ∧
    Secretspec.resolveItemType
        { Secretspec.BitwardenConfig.default with defaultItemType := some .login }
        { Secretspec.EnvVars.empty with defaultType := some "card" } = .card ∧
    Secretspec.bwsAccessToken
        { Secretspec.BitwardenConfig.default with accessToken := some "tok-cfg" }
        { Secretspec.EnvVars.empty with accessToken := some "tok-env" } = some "tok-cfg" :=
  ⟨(env_overrides_amended _ _).1 "org-env" rfl,
   (env_overrides_amended _ _).2.1 "col-env" rfl,
   (env_overrides_amended _ _).2.2.1 "field-env" rfl .login "hint",
   (env_overrides_amended _ _).2.2.2.1 "card" .card rfl (by decide),
   (env_overrides_amended _ _).2.2.2.2 "tok-cfg" rfl⟩

/-- C4: `set_to_password_manager` selects the item to update by exactly
three strategies tried in order, first hit winning: exact name equal to the
legacy compound name `{folder-template}/{key}` (the template defaulting to
`secretspec/{project}/{profile}` with placeholders substituted), exact name
equal to the bare key, and case-insensitive substring containment of the
key in the name; a new item is created exactly when all three strategies
fail on every listed item. -/
theorem set_to_password_manager_search_spec (cfg : Secretspec.BitwardenConfig)
    (project key profile : String) (items : List Secretspec.BitwardenItem) :
    (Secretspec.format_item_name cfg project key profile =
      Secretspec.strReplace
        (Secretspec.strReplace (cfg.folderTemplate.getD "secretspec/{project}/{profile}")
          "{project}" project) "{profile}" profile ++ "/" ++ key) ∧
    (Secretspec.set_to_password_manager_search cfg project key profile items = .create ↔
      ∀ item ∈ items,
        item.name ≠ Secretspec.format_item_name cfg project key profile ∧
        item.name ≠ key ∧
        Secretspec.strOccurs (Secretspec.strToLower item.name)
          (Secretspec.strToLower key) = false) ∧
    (∀ item,
      items.find? (fun it =>
          it.name == Secretspec.format_item_name cfg project key profile) = some item →
      Secretspec.set_to_password_manager_search cfg project key profile items =
        .update item) ∧
    (∀ item,
      items.find? (fun it =>
          it.name == Secretspec.format_item_name cfg project key profile) = none →
      items.find? (fun it => it.name == key) = some item →
      Secretspec.set_to_password_manager_search cfg project key profile items =
        .update item) ∧
    (∀ item,
      items.find? (fun it =>
          it.name == Secretspec.format_item_name cfg project key profile) = none →
      items.find? (fun it => it.name == key) = none →
      items.find? (fun it =>
          Secretspec.strOccurs (Secretspec.strToLower it.name)
            (Secretspec.strToLower key)) = some item →
      Secretspec.set_to_password_manager_search cfg project key profile items =
        .update item) := by
  refine ⟨rfl, ?_, ?_, ?_, ?_⟩
  · have hchar :
        Secretspec.set_to_password_manager_search cfg project key profile items =
            .create ↔
          (items.find? (fun it =>
              it.name == Secretspec.format_item_name cfg project key profile) = none ∧
           items.find? (fun it => it.name == key) = none ∧
           items.find? (fun it =>
              Secretspec.strOccurs (Secretspec.strToLower it.name)
                (Secretspec.strToLower key)) = none) := by
      simp only [Secretspec.set_to_password_manager_search]
      cases h1 : items.find? (fun it =>
          it.name == Secretspec.format_item_name cfg project key profile) with
      | some it => simp [h1]
      | none =>
        cases h2 : items.find? (fun it => it.name == key) with
        | some it => simp [h2]
        | none =>
          cases h3 : items.find? (fun it =>
              Secretspec.strOccurs (Secretspec.strToLower it.name)
                (Secretspec.strToLower key)) with
          | some it => simp [h3]
          | none => simp [h3]
    rw [hchar]
    simp only [List.find?_eq_none, beq_iff_eq, Bool.not_eq_true]
    constructor
    · rintro ⟨ha, hb, hc⟩ item hm
      exact ⟨ha item hm, hb item hm, hc item hm⟩
    · intro h
      exact ⟨fun item hm => (h item hm).1, fun item hm => (h item hm).2.1,
        fun item hm => (h item hm).2.2⟩
  · intro item h1
    simp only [Secretspec.set_to_password_manager_search, h1]
  · intro item h1 h2
    simp only [Secretspec.set_to_password_manager_search, h1, h2]
  · intro item h1 h2 h3
    simp only [Secretspec.set_to_password_manager_search, h1, h2, h3]

/-- Witness for C4 at concrete inputs: with one listed item named exactly
like the bare key (and unlike the legacy compound name), strategy 2 picks
it, and with an empty listing the action is create. -/
theorem set_to_password_manager_search_spec_witness :
    Secretspec.set_to_password_manager_search Secretspec.BitwardenConfig.default
        "proj" "API_KEY" "dev"
        [{ id := "i3", name := "API_KEY", itemType := .login, fields := none,
           notes := none, login := none, card := none, identity := none,
           sshKey := none }] =
      .update { id := "i3", name := "API_KEY", itemType := .login, fields := none,
                notes := none, login := none, card := none, identity := none,
                sshKey := none } ∧
    Secretspec.set_to_password_manager_search Secretspec.BitwardenConfig.default
        "proj" "API_KEY" "dev" [] = .create :=
  ⟨(set_to_password_manager_search_spec Secretspec.BitwardenConfig.default
      "proj" "API_KEY" "dev" _).2.2.2.1 _ (by decide) (by decide),
   ((set_to_password_manager_search_spec Secretspec.BitwardenConfig.default
      "proj" "API_KEY" "dev" []).2.1).2 (by simp)⟩

namespace Secretspec

/-- Helper: a Password-Manager query pair never touches the service,
project id or access token fields. -/
theorem applyPmQueryPair_inv (cfg : BitwardenConfig) (kv : String × String) :
    (applyPmQueryPair cfg kv).service = cfg.service ∧
    (applyPmQueryPair cfg kv).projectId = cfg.projectId ∧
    (applyPmQueryPair cfg kv).accessToken = cfg.accessToken := by
  simp only [applyPmQueryPair]
  repeat' split
  all_goals simp

/-- Helper: a Secrets-Manager query pair never touches the service,
organization id, collection id, server or folder-template fields. -/
theorem applySmQueryPair_inv (cfg : BitwardenConfig) (kv : String × String) :
    (applySmQueryPair cfg kv).service = cfg.service ∧
    (applySmQueryPair cfg kv).organizationId = cfg.organizationId ∧
    (applySmQueryPair cfg kv).collectionId = cfg.collectionId ∧
    (applySmQueryPair cfg kv).server = cfg.server ∧
    (applySmQueryPair cfg kv).folderTemplate = cfg.folderTemplate := by
  simp only [applySmQueryPair]
  repeat' split
  all_goals simp

/-- Helper: folding Password-Manager query pairs preserves the service,
project id and access token. -/
theorem pmFold_inv (q : List (String × String)) (cfg : BitwardenConfig) :
    (q.foldl applyPmQueryPair cfg).service = cfg.service ∧
    (q.foldl applyPmQueryPair cfg).projectId = cfg.projectId ∧
    (q.foldl applyPmQueryPair cfg).accessToken = cfg.accessToken := by
  induction q generalizing cfg with
  | nil => exact ⟨rfl, rfl, rfl⟩
  | cons kv rest ih =>
    have h := applyPmQueryPair_inv cfg kv
    have h2 := ih (applyPmQueryPair cfg kv)
    simp only [List.foldl_cons]
    exact ⟨h2.1.trans h.1, h2.2.1.trans h.2.1, h2.2.2.trans h.2.2⟩

/-- Helper: folding Secrets-Manager query pairs preserves the service,
organization id, collection id, server and folder template. -/
theorem smFold_inv (q : List (String × String)) (cfg : BitwardenConfig) :
    (q.foldl applySmQueryPair cfg).service = cfg.service ∧
    (q.foldl applySmQueryPair cfg).organizationId = cfg.organizationId ∧
    (q.foldl applySmQueryPair cfg).collectionId = cfg.collectionId ∧
    (q.foldl applySmQueryPair cfg).server = cfg.server ∧
    (q.foldl applySmQueryPair cfg).folderTemplate = cfg.folderTemplate := by
  induction q generalizing cfg with
  | nil => exact ⟨rfl, rfl, rfl, rfl, rfl⟩
  | cons kv rest ih =>
    have h := applySmQueryPair_inv cfg kv
    have h2 := ih (applySmQueryPair cfg kv)
    simp only [List.foldl_cons]
    exact ⟨h2.1.trans h.1, h2.2.1.trans h.2.1, h2.2.2.1.trans h.2.2.1,
      h2.2.2.2.1.trans h.2.2.2.1, h2.2.2.2.2.trans h.2.2.2.2⟩

end Secretspec

/-- C5: URI edge cases of the parser: no authority leaves
collection/project (and organization) unset for both schemes; the
`org@collection` authority splits into organization and collection;
unrecognized query keys are ignored without error in both variants; a
`type` query value outside the enumeration leaves the default item type at
its prior value; and a host equal to `localhost` is treated exactly like no
authority. -/
theorem uri_edge_cases :
    (∃ c, Secretspec.bitwardenConfigOfUrl ⟨"bitwarden", "", none, []⟩ = .ok c ∧
      c.collectionId = none ∧ c.projectId = none ∧ c.organizationId = none) ∧
    (∃ c, Secretspec.bitwardenConfigOfUrl ⟨"bws", "", none, []⟩ = .ok c ∧
      c.projectId = none ∧ c.collectionId = none) ∧
    (∃ c, Secretspec.bitwardenConfigOfUrl ⟨"bitwarden", "org", some "collection", []⟩ =
        .ok c ∧ c.organizationId = some "org" ∧ c.collectionId = some "collection") ∧
    (∀ (cfg : Secretspec.BitwardenConfig) (k v : String),
      k ≠ "org" → k ≠ "organization" → k ≠ "collection" → k ≠ "server" →
      k ≠ "folder" → k ≠ "type" → k ≠ "field" →
      Secretspec.applyPmQueryPair cfg (k, v) = cfg) ∧
    (∀ (cfg : Secretspec.BitwardenConfig) (k v : String),
      k ≠ "project" → k ≠ "token" → k ≠ "type" → k ≠ "field" →
      Secretspec.applySmQueryPair cfg (k, v) = cfg) ∧
    (∀ (cfg : Secretspec.BitwardenConfig) (v : String),
      Secretspec.BitwardenItemType.fromStr v = none →
      Secretspec.applyPmQueryPair cfg ("type", v) = cfg ∧
      Secretspec.applySmQueryPair cfg ("type", v) = cfg) ∧
    (∀ (u : String) (q : List (String × String)),
      Secretspec.bitwardenConfigOfUrl ⟨"bitwarden", u, some "localhost", q⟩ =
        Secretspec.bitwardenConfigOfUrl ⟨"bitwarden", u, none, q⟩) ∧
    (∀ (u : String) (q : List (String × String)),
      Secretspec.bitwardenConfigOfUrl ⟨"bws", u, some "localhost", q⟩ =
        Secretspec.bitwardenConfigOfUrl ⟨"bws", u, none, q⟩) := by
  refine ⟨⟨_, rfl, rfl, rfl, rfl⟩, ⟨_, rfl, rfl, rfl⟩, ⟨_, rfl, rfl, rfl⟩,
    ?_, ?_, ?_, fun u q => rfl, fun u q => rfl⟩
  · intro cfg k v h1 h2 h3 h4 h5 h6 h7
    simp only [Secretspec.applyPmQueryPair]
  · intro cfg k v h1 h2 h3 h4
    simp only [Secretspec.applySmQueryPair]
  · intro cfg v h
    constructor
    · simp only [Secretspec.applyPmQueryPair, h]
    · simp only [Secretspec.applySmQueryPair, h]

/-- Witness for C5 at concrete inputs: an unknown query key and an invalid
`type` value leave the configuration unchanged. -/
theorem uri_edge_cases_witness :
    Secretspec.applyPmQueryPair Secretspec.BitwardenConfig.default
      ("unknown_key", "x") = Secretspec.BitwardenConfig.default ∧
    Secretspec.applySmQueryPair Secretspec.BitwardenConfig.default
      ("unknown_key", "x") = Secretspec.BitwardenConfig.default ∧
    Secretspec.applyPmQueryPair Secretspec.BitwardenConfig.default
      ("type", "nosuchtype") = Secretspec.BitwardenConfig.default ∧
    Secretspec.applySmQueryPair Secretspec.BitwardenConfig.default
      ("type", "nosuchtype") = Secretspec.BitwardenConfig.default :=
  ⟨uri_edge_cases.2.2.2.1 _ "unknown_key" "x" (by decide) (by decide) (by decide)
      (by decide) (by decide) (by decide) (by decide),
   uri_edge_cases.2.2.2.2.1 _ "unknown_key" "x" (by decide) (by decide) (by decide)
      (by decide),
   (uri_edge_cases.2.2.2.2.2.1 _ "nosuchtype" (by decide)).1,
   (uri_edge_cases.2.2.2.2.2.1 _ "nosuchtype" (by decide)).2⟩

/-- C6: the parser keeps the service variants' fields disjoint: a
Secrets-Manager configuration never carries the rich-item-only fields
(organization id, collection id, server, folder template) and a
Password-Manager configuration never carries the flat-kv-only fields
(project id, access token). -/
theorem service_fields_disjoint (url : Secretspec.UrlParts)
    (cfg : Secretspec.BitwardenConfig)
    (h : Secretspec.bitwardenConfigOfUrl url = .ok cfg) :
    (cfg.service = .secretsManager →
      cfg.organizationId = none ∧ cfg.collectionId = none ∧
      cfg.server = none ∧ cfg.folderTemplate = none) ∧
    (cfg.service = .passwordManager →
      cfg.projectId = none ∧ cfg.accessToken = none) := by
  simp only [Secretspec.bitwardenConfigOfUrl] at h
  by_cases hb : url.scheme = "bitwarden"
  · rw [if_pos hb, Except.ok.injEq] at h
    subst h
    constructor
    · intro hsm
      exfalso
      rw [(Secretspec.pmFold_inv _ _).1] at hsm
      revert hsm
      repeat' split
      all_goals simp
    · intro _
      constructor
      · rw [(Secretspec.pmFold_inv _ _).2.1]
        repeat' split
        all_goals rfl
      · rw [(Secretspec.pmFold_inv _ _).2.2]
        repeat' split
        all_goals rfl
  · by_cases hw : url.scheme = "bws"
    · rw [if_neg hb, if_pos hw, Except.ok.injEq] at h
      subst h
      constructor
      · intro _
        refine ⟨?_, ?_, ?_, ?_⟩
        · rw [(Secretspec.smFold_inv _ _).2.1]
          repeat' split
          all_goals rfl
        · rw [(Secretspec.smFold_inv _ _).2.2.1]
          repeat' split
          all_goals rfl
        · rw [(Secretspec.smFold_inv _ _).2.2.2.1]
          repeat' split
          all_goals rfl
        · rw [(Secretspec.smFold_inv _ _).2.2.2.2]
          repeat' split
          all_goals rfl
      · intro hpm
        exfalso
        rw [(Secretspec.smFold_inv _ _).1] at hpm
        revert hpm
        repeat' split
        all_goals simp
    · rw [if_neg hb, if_neg hw] at h
      cases h

/-- Witness for C6: the configuration parsed from a concrete
Secrets-Manager URI has all rich-item-only fields unset. -/
theorem service_fields_disjoint_witness :
    ∃ cfg, Secretspec.bitwardenConfigOfUrl ⟨"bws", "", some "proj-id", []⟩ = .ok cfg ∧
      cfg.organizationId = none ∧ cfg.collectionId = none ∧
      cfg.server = none ∧ cfg.folderTemplate = none := by
  refine ⟨_, rfl, ?_⟩
  exact (service_fields_disjoint ⟨"bws", "", some "proj-id", []⟩ _ rfl).1 rfl

/-- C8: a URI whose scheme is neither `bitwarden` nor `bws` makes the
parser fail with an error message naming both valid schemes; for either
valid scheme parsing always succeeds (it is a total string
transformation). -/
theorem scheme_validation (url : Secretspec.UrlParts) :
    (url.scheme ≠ "bitwarden" → url.scheme ≠ "bws" →
      ∃ a b c, Secretspec.bitwardenConfigOfUrl url =
        .error (a ++ "bitwarden://" ++ b ++ "bws://" ++ c)) ∧
    (url.scheme = "bitwarden" ∨ url.scheme = "bws" →
      ∃ cfg, Secretspec.bitwardenConfigOfUrl url = .ok cfg) := by
  constructor
  · intro h1 h2
    refine ⟨"Invalid scheme '" ++ url.scheme ++ "' for Bitwarden provider. Use '",
      "' for Password Manager or '", "' for Secrets Manager", ?_⟩
    simp only [Secretspec.bitwardenConfigOfUrl, h1, h2, if_false]
    simp only [Secretspec.invalidSchemeMessage, String.append_assoc]
    rfl
  · rintro (h | h) <;> simp [Secretspec.bitwardenConfigOfUrl, h]

/-- Witness for C8 at concrete URIs: the scheme `vault` is rejected with a
message naming both schemes, and both valid schemes parse. -/
theorem scheme_validation_witness :
    (∃ a b c, Secretspec.bitwardenConfigOfUrl ⟨"vault", "", none, []⟩ =
      .error (a ++ "bitwarden://" ++ b ++ "bws://" ++ c)) ∧
    (∃ cfg, Secretspec.bitwardenConfigOfUrl ⟨"bitwarden", "", none, []⟩ = .ok cfg) ∧
    (∃ cfg, Secretspec.bitwardenConfigOfUrl ⟨"bws", "", none, []⟩ = .ok cfg) :=
  ⟨(scheme_validation ⟨"vault", "", none, []⟩).1 (by decide) (by decide),
   (scheme_validation ⟨"bitwarden", "", none, []⟩).2 (Or.inl rfl),
   (scheme_validation ⟨"bws", "", none, []⟩).2 (Or.inr rfl)⟩

/-- C7: without a project id, `set_to_secrets_manager` fails with the
configuration error before any `bws` process is spawned (empty trace);
with a project id it first attempts creation under the compound key
`{project}_{key}`; a creation failure whose message does not mention
`already exists` is returned with no further call, while an
`already exists` failure triggers a list call and then an edit, by
identifier, of the first listed secret whose key equals the compound key
or the bare key. -/
theorem set_to_secrets_manager_spec (cfg : Secretspec.BitwardenConfig)
    (backend : Secretspec.BwsBackend) (project key value : String) :
    (cfg.projectId = none →
      Secretspec.set_to_secrets_manager cfg backend project key value =
        (.error "Project ID is required for Bitwarden Secrets Manager. Use bws://project-id or bws://?project=project-id",
         [])) ∧
    (∀ pid, cfg.projectId = some pid →
      (backend.createResult = .ok () →
        Secretspec.set_to_secrets_manager cfg backend project key value =
          (.ok (), [.createSecret (project ++ "_" ++ key) value pid
            ("SecretSpec managed secret: " ++ project ++ "/" ++ key)])) ∧
      (∀ msg, backend.createResult = .error msg →
        Secretspec.strOccurs msg "already exists" = false →
        Secretspec.set_to_secrets_manager cfg backend project key value =
          (.error msg, [.createSecret (project ++ "_" ++ key) value pid
            ("SecretSpec managed secret: " ++ project ++ "/" ++ key)])) ∧
      (∀ msg secrets s, backend.createResult = .error msg →
        Secretspec.strOccurs msg "already exists" = true →
        backend.listResult = .ok secrets →
        secrets.find? (fun x => x.key == project ++ "_" ++ key || x.key == key) =
          some s →
        Secretspec.set_to_secrets_manager cfg backend project key value =
          (backend.editResult.map fun _ => (),
           [.createSecret (project ++ "_" ++ key) value pid
              ("SecretSpec managed secret: " ++ project ++ "/" ++ key),
            .listSecrets pid,
            .editSecret s.id (project ++ "_" ++ key) value]))) := by
  constructor
  · intro h
    simp [Secretspec.set_to_secrets_manager, h]
  · intro pid hpid
    refine ⟨?_, ?_, ?_⟩
    · intro hok
      simp [Secretspec.set_to_secrets_manager, hpid, hok]
    · intro msg hmsg hno
      simp [Secretspec.set_to_secrets_manager, hpid, hmsg, hno]
    · intro msg secrets s hmsg hyes hlist hfind
      simp [Secretspec.set_to_secrets_manager, hpid, hmsg, hyes, hlist, hfind]

/-- Witness for C7 at concrete inputs: no project id gives the
configuration error with an empty process trace, and the
`already exists` path edits the matching secret by its identifier. -/
theorem set_to_secrets_manager_spec_witness :
    Secretspec.set_to_secrets_manager
        { Secretspec.BitwardenConfig.default with service := .secretsManager }
        ⟨.ok (), .ok [], .ok ()⟩ "proj" "KEY" "v" =
      (.error "Project ID is required for Bitwarden Secrets Manager. Use bws://project-id or bws://?project=project-id",
       []) ∧
    Secretspec.set_to_secrets_manager
        { Secretspec.BitwardenConfig.default with
            service := .secretsManager, projectId := some "pid1" }
        ⟨.error "conflict: secret already exists",
         .ok [{ object := none, id := "sid9", organizationId := "o",
                projectId := "pid1", key := "proj_KEY", value := "old",
                note := "", creationDate := "", revisionDate := "" }],
         .ok ()⟩ "proj" "KEY" "v" =
      (.ok (), [.createSecret "proj_KEY" "v" "pid1" "SecretSpec managed secret: proj/KEY",
                .listSecrets "pid1", .editSecret "sid9" "proj_KEY" "v"]) := by
  constructor
  · exact (set_to_secrets_manager_spec _ _ "proj" "KEY" "v").1 rfl
  · have h := ((set_to_secrets_manager_spec
        { Secretspec.BitwardenConfig.default with
            service := .secretsManager, projectId := some "pid1" }
        ⟨.error "conflict: secret already exists",
        .ok [{ object := none, id := "sid9", organizationId := "o",
               projectId := "pid1", key := "proj_KEY", value := "old",
               note := "", creationDate := "", revisionDate := "" }],
        .ok ()⟩ "proj" "KEY" "v").2 "pid1" rfl).2.2
      "conflict: secret already exists"
      [{ object := none, id := "sid9", organizationId := "o",
         projectId := "pid1", key := "proj_KEY", value := "old",
         note := "", creationDate := "", revisionDate := "" }]
      { object := none, id := "sid9", organizationId := "o",
        projectId := "pid1", key := "proj_KEY", value := "old",
        note := "", creationDate := "", revisionDate := "" }
      rfl (by decide) rfl (by decide)
    simpa using h
